import Mathlib

/-
Verification of the statistical evaluation and decision engine of the
StreamingExperimentAnalyser repository (src/analysis/utils.py,
src/analysis/experiment_analysis.py, src/analysis/config.py).

Modelling conventions:
* Python floats are modelled by `MF := Option ℚ`, with `none` standing for an
  undefined or non-finite value (NaN or infinity).  Arithmetic propagates
  `none`; division by zero yields `none` (IEEE division of a finite value by
  zero yields a non-finite value, and 0/0 yields NaN, both folded into `none`).
  Comparisons involving `none` are `false`, as IEEE comparisons with NaN are,
  while the Python inequality test `x != 0` is `true` for NaN, which the
  dedicated `mNe` captures.
* numpy and scipy are external libraries, not repository code.  Functions with
  a simple documented arithmetic meaning (`np.mean`, `np.var(ddof=1)`,
  `stats.sem`) are modelled by that arithmetic; genuinely numeric library
  routines (`np.sqrt`, `stats.ttest_ind`, `stats.t.interval`) are abstract
  parameters collected in a `StatsEnv`.
* `CONFIDENCE_LEVEL` is imported by utils.py from analysis.config but is not
  defined in that file, so it is carried as an abstract field of `StatsEnv`.
* pandas DataFrames are modelled as lists of rows; a cell holds `Option ℚ`
  where `none` is a missing value removed by `dropna`.
-/

/-- Model of a Python float: `some q` is the finite value `q`, `none` is NaN
or an infinity. -/
abbrev MF := Option ℚ

/-- Addition, propagating undefined values. -/
def mAdd : MF → MF → MF
  | some a, some b => some (a + b)
  | _, _ => none

/-- Subtraction, propagating undefined values. -/
def mSub : MF → MF → MF
  | some a, some b => some (a - b)
  | _, _ => none

/-- Multiplication, propagating undefined values. -/
def mMul : MF → MF → MF
  | some a, some b => some (a * b)
  | _, _ => none

/-- Division: undefined when either operand is undefined or the divisor is
zero (0/0 is NaN and x/0 is an infinity, both folded into `none`). -/
def mDiv : MF → MF → MF
  | some a, some b => if b = 0 then none else some (a / b)
  | _, _ => none

/-- Strict less-than; comparisons involving NaN are false. -/
def mLt : MF → MF → Bool
  | some a, some b => decide (a < b)
  | _, _ => false

/-- Strict greater-than; comparisons involving NaN are false. -/
def mGt (x y : MF) : Bool := mLt y x

/-- Non-strict less-or-equal; comparisons involving NaN are false. -/
def mLe : MF → MF → Bool
  | some a, some b => decide (a ≤ b)
  | _, _ => false

/-- Non-strict greater-or-equal; comparisons involving NaN are false. -/
def mGe (x y : MF) : Bool := mLe y x

/-- Absolute value, propagating undefined values. -/
def mAbs : MF → MF
  | some a => some |a|
  | none => none

/-- The Python test `x != c` for a float `x` and an exact constant `c`;
NaN compares unequal to everything, so the result is `true` for `none`. -/
def mNe : MF → ℚ → Bool
  | none, _ => true
  | some a, b => decide (a ≠ b)

/-- Square root lifted to `MF`: undefined input or a negative input gives NaN,
otherwise the underlying library square root is applied. -/
def mSqrt (sqrt : ℚ → ℚ) : MF → MF
  | none => none
  | some q => if q < 0 then none else some (sqrt q)

/-- np.mean: the arithmetic mean, NaN on an empty sample. -/
def npMean (xs : List ℚ) : MF :=
  if xs.isEmpty then none else some (xs.sum / (xs.length : ℚ))

/-- np.var with ddof=1: the sample variance.  On fewer than two observations
the result is NaN (mean of an empty array, or a 0/0 division). -/
def npVar (xs : List ℚ) : MF :=
  if xs.length ≤ 1 then none
  else (npMean xs).map (fun m => ((xs.map (fun x => (x - m) ^ 2)).sum) / ((xs.length : ℚ) - 1))

/-- Abstract interface to the numeric library routines used by utils.py.
`sqrt` is np.sqrt restricted to finite arguments, `ttest_ind` is
stats.ttest_ind returning the pair (t statistic, p-value), `t_interval` is
stats.t.interval taking the confidence level, the degrees of freedom, the
location and the scale.  `CONFIDENCE_LEVEL` is the constant utils.py imports
from analysis.config, which config.py does not define. -/
structure StatsEnv where
  sqrt : ℚ → ℚ
  ttest_ind : List ℚ → List ℚ → MF × MF
  t_interval : ℚ → Int → MF → MF → MF × MF
  CONFIDENCE_LEVEL : ℚ

/-- stats.sem: standard error of the mean, sample standard deviation divided
by the square root of the sample size. -/
def sem (env : StatsEnv) (xs : List ℚ) : MF :=
  mDiv (mSqrt env.sqrt (npVar xs)) (mSqrt env.sqrt (some (xs.length : ℚ)))

/-- Pooled standard deviation as computed inside calculate_cohens_d in
utils.py: sqrt(((n1-1)*var1 + (n2-1)*var2) / (n1+n2-2)) with ddof=1
variances. -/
def pooled_std (env : StatsEnv) (group1 group2 : List ℚ) : MF :=
  let n1 := group1.length
  let n2 := group2.length
  mSqrt env.sqrt (mDiv
    (mAdd (mMul (some ((n1 : ℚ) - 1)) (npVar group1))
          (mMul (some ((n2 : ℚ) - 1)) (npVar group2)))
    (some ((n1 : ℚ) + (n2 : ℚ) - 2)))

/-- calculate_cohens_d from utils.py: (mean(group2) - mean(group1)) divided by
the pooled standard deviation. -/
def calculate_cohens_d (env : StatsEnv) (group1 group2 : List ℚ) : MF :=
  mDiv (mSub (npMean group2) (npMean group1)) (pooled_std env group1 group2)

/-- Statistical thresholds from analysis/config.py. -/
def SIGNIFICANCE_LEVEL : ℚ := 5 / 100

/-- Guardrail significance threshold from analysis/config.py. -/
def GUARDRAIL_SIGNIFICANCE : ℚ := 10 / 100

/-- Minimum effect size from analysis/config.py. -/
def MIN_EFFECT_SIZE : ℚ := 2 / 100

/-- Maximum guardrail degradation from analysis/config.py. -/
def MAX_GUARDRAIL_DEGRADATION : ℚ := 1 / 100

/-- Primary metric name from analysis/config.py. -/
def PRIMARY_METRIC : String := "avg_session_duration"

/-- Guardrail metric ids from analysis/config.py. -/
def GUARDRAIL_METRICS : List String := ["skip_rate", "sessions_per_user", "retention_d1"]

/-- Result record of perform_ttest in utils.py. -/
structure TTestResult where
  control_mean : MF
  variant_mean : MF
  control_se : MF
  variant_se : MF
  control_ci_lower : MF
  control_ci_upper : MF
  variant_ci_lower : MF
  variant_ci_upper : MF
  t_statistic : MF
  p_value : MF
  cohens_d : MF
  relative_lift : MF
  sample_size_control : Nat
  sample_size_variant : Nat

/-- perform_ttest from utils.py.  Note the argument order of the library call:
stats.ttest_ind(variant, control), so the statistic treats variant minus
control as positive.  relative_lift is (variant_mean - control_mean) /
control_mean guarded by the Python test control_mean != 0, else exactly 0. -/
def perform_ttest (env : StatsEnv) (control variant : List ℚ) : TTestResult :=
  let tp := env.ttest_ind variant control
  let control_mean := npMean control
  let variant_mean := npMean variant
  let control_se := sem env control
  let variant_se := sem env variant
  let control_ci := env.t_interval env.CONFIDENCE_LEVEL ((control.length : Int) - 1) control_mean control_se
  let variant_ci := env.t_interval env.CONFIDENCE_LEVEL ((variant.length : Int) - 1) variant_mean variant_se
  let cohens_d := calculate_cohens_d env control variant
  let relative_lift := if mNe control_mean 0
    then mDiv (mSub variant_mean control_mean) control_mean
    else some 0
  { control_mean := control_mean
    variant_mean := variant_mean
    control_se := control_se
    variant_se := variant_se
    control_ci_lower := control_ci.1
    control_ci_upper := control_ci.2
    variant_ci_lower := variant_ci.1
    variant_ci_upper := variant_ci.2
    t_statistic := tp.1
    p_value := tp.2
    cohens_d := cohens_d
    relative_lift := relative_lift
    sample_size_control := control.length
    sample_size_variant := variant.length }

/-- Decimal digit character. -/
def digitChar : Nat → Char
  | 0 => '0'
  | 1 => '1'
  | 2 => '2'
  | 3 => '3'
  | 4 => '4'
  | 5 => '5'
  | 6 => '6'
  | 7 => '7'
  | 8 => '8'
  | 9 => '9'
  | _ => '?'

/-- Decimal digits of a natural number, most significant first; the first
argument is recursion fuel. -/
def natDigitsAux : Nat → Nat → List Char
  | 0, _ => []
  | fuel + 1, n => if n = 0 then [] else natDigitsAux fuel (n / 10) ++ [digitChar (n % 10)]

/-- Decimal string of a natural number. -/
def natStr (n : Nat) : String :=
  if n = 0 then "0" else String.mk (natDigitsAux (n + 1) n)

/-- Round to the nearest integer, ties to even, as Python float formatting
does on the exact value. -/
def roundHalfEven (q : ℚ) : Int :=
  let f := Rat.floor q
  let r := q - (f : ℚ)
  if r < 1 / 2 then f
  else if 1 / 2 < r then f + 1
  else if f % 2 = 0 then f else f + 1

/-- Fixed-point decimal formatting of a rational with `d` fractional digits,
the model of a Python format specifier such as .2f or .3f. -/
def fmtFixed (d : Nat) (q : ℚ) : String :=
  let sign := if q < 0 then "-" else ""
  let scaled := (roundHalfEven (|q| * ((10 : ℚ) ^ d))).toNat
  let ip := scaled / 10 ^ d
  let fp := scaled % 10 ^ d
  let fpDigits := natStr fp
  let fpPadded := String.mk (List.replicate (d - fpDigits.length) '0') ++ fpDigits
  if d = 0 then sign ++ natStr ip else sign ++ natStr ip ++ "." ++ fpPadded

/-- Python fixed-point formatting lifted to `MF`; NaN prints as nan. -/
def pyFmt (d : Nat) : MF → String
  | none => "nan"
  | some q => fmtFixed d q

/-- format_p_value from utils.py. -/
def format_p_value (p : MF) : String :=
  if mLt p (some (1 / 1000)) then "< 0.001" else pyFmt 3 p

/-- interpret_effect_size from utils.py.  Comparisons with NaN are false, so a
NaN effect size falls through every branch to large, as the Python code
does. -/
def interpret_effect_size (d : MF) : String :=
  let a := mAbs d
  if mLt a (some (2 / 10)) then "negligible"
  else if mLt a (some (5 / 10)) then "small"
  else if mLt a (some (8 / 10)) then "medium"
  else "large"

/-- One row of the fct_user_metrics frame: the variant label and the numeric
cells indexed by column name; `none` is a missing value removed by
dropna. -/
structure UserRow where
  experiment_variant : String
  cell : String → Option ℚ

/-- The sample df[df[experiment_variant] == v][col].dropna() drawn by
analyze_metric. -/
def seriesOf (df : List UserRow) (v col : String) : List ℚ :=
  (df.filter (fun row => row.experiment_variant = v)).filterMap (fun row => row.cell col)

/-- The per-metric result dict built by ExperimentAnalyzer.analyze_metric: the
perform_ttest fields merged with the metric annotations. -/
structure MetricResult extends TTestResult where
  metric_name : String
  is_primary : Bool
  is_significant : Bool
  meets_threshold : Bool
  is_degraded : Bool

/-- ExperimentAnalyzer.analyze_metric.  The retention_d1 astype(float)
coercion is the identity in this model since every cell is already numeric.
Note that the degradation direction branches on the literal column name
avg_skip_rate. -/
def analyze_metric (env : StatsEnv) (df : List UserRow) (metric_name : String)
    (is_primary : Bool) : MetricResult :=
  let control := seriesOf df "control" metric_name
  let variant := seriesOf df "variant_b" metric_name
  let t := perform_ttest env control variant
  let sig_level := if is_primary then SIGNIFICANCE_LEVEL else GUARDRAIL_SIGNIFICANCE
  let is_significant := mLt t.p_value (some sig_level)
  let meets_threshold := mGe (mAbs t.relative_lift) (some MIN_EFFECT_SIZE)
  let is_degraded :=
    if !is_primary then
      if metric_name = "avg_skip_rate" then
        mGt t.relative_lift (some MAX_GUARDRAIL_DEGRADATION) && is_significant
      else
        mLt t.relative_lift (some (-MAX_GUARDRAIL_DEGRADATION)) && is_significant
    else false
  { toTTestResult := t
    metric_name := metric_name
    is_primary := is_primary
    is_significant := is_significant
    meets_threshold := meets_threshold
    is_degraded := is_degraded }

/-- ExperimentAnalyzer.analyze_all_metrics restricted to its computational
content: the primary metric is analyzed first, then each configured guardrail
with its config id mapped to the source column name; the results dict keyed by
the config ids is modelled as an association list in insertion order. -/
def analyze_all_metrics (env : StatsEnv) (df : List UserRow) : List (String × MetricResult) :=
  let primary_result := analyze_metric env df PRIMARY_METRIC true
  let guardrails := GUARDRAIL_METRICS.map (fun metric =>
    let metric_col :=
      if metric = "skip_rate" then "avg_skip_rate"
      else if metric = "retention_d1" then "retention_d1"
      else if metric = "sessions_per_user" then "sessions_per_user"
      else metric
    (metric, analyze_metric env df metric_col false))
  (PRIMARY_METRIC, primary_result) :: guardrails

/-- The degraded-guardrail list computed inside make_ship_decision: the keys
of the results whose value is a degraded non-primary metric, in insertion
order. -/
def degraded_guardrails_of (results : List (String × MetricResult)) : List String :=
  (results.filter (fun mr => !mr.2.is_primary && mr.2.is_degraded)).map (fun mr => mr.1)

/-- The decision dict returned by ExperimentAnalyzer.make_ship_decision. -/
structure Decision where
  decision : String
  confidence : String
  reasoning : List String
  primary_metric_lift : MF
  primary_metric_pvalue : MF
  degraded_guardrails : List String

/-- The branch cascade of make_ship_decision, as a function of the primary
result and the degraded-guardrail list, which are the only inputs the Python
code consults.  The interpolated threshold constants 0.05 and 2.0 are the
Python str() renderings of SIGNIFICANCE_LEVEL and MIN_EFFECT_SIZE*100. -/
def ship_decision_body (primary : MetricResult) (degraded_guardrails : List String) : Decision :=
  let primary_success :=
    primary.is_significant && primary.meets_threshold && mGt primary.relative_lift (some 0)
  if primary_success && degraded_guardrails.isEmpty then
    { decision := "SHIP"
      confidence := "HIGH"
      reasoning :=
        ["Primary metric (" ++ PRIMARY_METRIC ++ ") shows significant positive lift of "
           ++ pyFmt 2 (mMul primary.relative_lift (some 100)) ++ "%",
         "Statistical significance achieved (p = " ++ format_p_value primary.p_value ++ ")",
         "Effect size is " ++ interpret_effect_size primary.cohens_d
           ++ " (Cohen\x27s d = " ++ pyFmt 3 primary.cohens_d ++ ")",
         "No guardrail metrics degraded"]
      primary_metric_lift := primary.relative_lift
      primary_metric_pvalue := primary.p_value
      degraded_guardrails := degraded_guardrails }
  else if primary_success && !degraded_guardrails.isEmpty then
    { decision := "DON\x27T SHIP"
      confidence := "MEDIUM"
      reasoning :=
        ["Primary metric shows positive lift of "
           ++ pyFmt 2 (mMul primary.relative_lift (some 100)) ++ "%",
         "BUT guardrail metric(s) degraded: " ++ String.intercalate ", " degraded_guardrails,
         "Risk of harming user experience outweighs primary metric gains"]
      primary_metric_lift := primary.relative_lift
      primary_metric_pvalue := primary.p_value
      degraded_guardrails := degraded_guardrails }
  else if primary.is_significant && mLt primary.relative_lift (some 0) then
    { decision := "DON\x27T SHIP"
      confidence := "HIGH"
      reasoning :=
        ["Primary metric shows NEGATIVE lift of "
           ++ pyFmt 2 (mMul primary.relative_lift (some 100)) ++ "%",
         "Variant is worse than control"]
      primary_metric_lift := primary.relative_lift
      primary_metric_pvalue := primary.p_value
      degraded_guardrails := degraded_guardrails }
  else
    { decision := "DON\x27T SHIP"
      confidence := "MEDIUM"
      reasoning :=
        (["Primary metric lift (" ++ pyFmt 2 (mMul primary.relative_lift (some 100))
            ++ "%) is not statistically significant",
          "p-value = " ++ format_p_value primary.p_value ++ " (threshold: 0.05)",
          "Insufficient evidence to conclude variant is better"]
         ++ if primary.meets_threshold then []
            else ["Lift does not meet minimum threshold of 2.0%"])
      primary_metric_lift := primary.relative_lift
      primary_metric_pvalue := primary.p_value
      degraded_guardrails := degraded_guardrails }

/-- ExperimentAnalyzer.make_ship_decision as a function of the evaluated
results.  A missing primary entry is the KeyError case, modelled as
`none`. -/
def make_ship_decision (results : List (String × MetricResult)) : Option Decision :=
  (results.lookup PRIMARY_METRIC).map
    (fun primary => ship_decision_body primary (degraded_guardrails_of results))

/-- Definition following the spec words in section 4.2: degradation of a
guardrail driven by an explicit per-metric higher_is_worse flag, to be
compared with the name-driven computation in analyze_metric. -/
def is_degraded_spec (higher_is_worse is_significant : Bool) (relative_lift : MF) : Bool :=
  if higher_is_worse then
    mGt relative_lift (some MAX_GUARDRAIL_DEGRADATION) && is_significant
  else
    mLt relative_lift (some (-MAX_GUARDRAIL_DEGRADATION)) && is_significant

/-- A concrete library instance for evaluating the embedding on closed
inputs: the square root is 0 on nonpositive and 1 on positive arguments
(which is enough to witness sign properties), and the opaque test routines
return undefined values, as scipy does on degenerate inputs. -/
def testEnv : StatsEnv where
  sqrt := fun q => if q ≤ 0 then 0 else 1
  ttest_ind := fun _ _ => (none, none)
  t_interval := fun _ _ _ _ => (none, none)
  CONFIDENCE_LEVEL := 95 / 100

/-- A concrete library instance whose t-test reports the p-value 0.001,
below both significance thresholds. -/
def sigEnv : StatsEnv where
  sqrt := fun q => if q ≤ 0 then 0 else 1
  ttest_ind := fun _ _ => (some 0, some (1 / 1000))
  t_interval := fun _ _ _ _ => (none, none)
  CONFIDENCE_LEVEL := 95 / 100

/-- A data frame in which every metric column shows a +10 percent lift:
control observations 1 and 1, variant observations 1 and 6/5. -/
def dfLift : List UserRow :=
  [⟨"control", fun _ => some 1⟩, ⟨"control", fun _ => some 1⟩,
   ⟨"variant_b", fun _ => some 1⟩, ⟨"variant_b", fun _ => some (6 / 5)⟩]

/-- A data frame whose control partition has exactly one observation. -/
def dfOneControl : List UserRow :=
  [⟨"control", fun _ => some 5⟩,
   ⟨"variant_b", fun _ => some 1⟩, ⟨"variant_b", fun _ => some 2⟩,
   ⟨"variant_b", fun _ => some 3⟩]

/-- A data frame in which every observation in both groups is the identical
value 1, so the pooled standard deviation is zero. -/
def dfConst : List UserRow :=
  [⟨"control", fun _ => some 1⟩, ⟨"control", fun _ => some 1⟩,
   ⟨"variant_b", fun _ => some 1⟩, ⟨"variant_b", fun _ => some 1⟩]

/-- The primary metric of dfLift evaluated under sigEnv: significant, above
threshold, positive lift. -/
def exPrimary : MetricResult := analyze_metric sigEnv dfLift PRIMARY_METRIC true

/-- A one-entry evaluated results map holding only the primary metric. -/
def exResults : List (String × MetricResult) := [(PRIMARY_METRIC, exPrimary)]

/-- The decision computed on exResults. -/
def decEx : Decision := ship_decision_body exPrimary (degraded_guardrails_of exResults)

theorem mMul_none_right (x : MF) : mMul x none = none := by cases x <;> rfl

theorem mMul_none_left (x : MF) : mMul none x = none := rfl

theorem mAdd_none_right (x : MF) : mAdd x none = none := by cases x <;> rfl

theorem mAdd_none_left (x : MF) : mAdd none x = none := rfl

theorem mSub_none_right (x : MF) : mSub x none = none := by cases x <;> rfl

theorem mSub_none_left (x : MF) : mSub none x = none := rfl

theorem mDiv_none_right (x : MF) : mDiv x none = none := by cases x <;> rfl

theorem mDiv_none_left (x : MF) : mDiv none x = none := rfl

theorem mDiv_some_zero (x : MF) : mDiv x (some 0) = none := by
  cases x with
  | none => rfl
  | some a => simp [mDiv]

theorem mSqrt_none (f : ℚ → ℚ) : mSqrt f none = none := rfl

theorem mLt_some_iff (x : MF) (q : ℚ) :
    mLt x (some q) = true ↔ ∃ a, x = some a ∧ a < q := by
  cases x <;> simp [mLt]

theorem mLt_zero_not_mGt_zero {x : MF} (h : mLt x (some 0) = true) :
    mGt x (some 0) = false := by
  obtain ⟨a, ha, halt⟩ := (mLt_some_iff x 0).mp h
  subst ha
  simp [mGt, mLt]
  linarith

theorem mDiv_eq_some_iff (x y : MF) (d : ℚ) :
    mDiv x y = some d ↔ ∃ a b, x = some a ∧ y = some b ∧ b ≠ 0 ∧ d = a / b := by
  cases x with
  | none => simp [mDiv]
  | some a =>
    cases y with
    | none => simp [mDiv]
    | some b =>
      by_cases hb : b = 0 <;> simp [mDiv, hb, eq_comm]

theorem mSqrt_eq_some (f : ℚ → ℚ) (x : MF) (s : ℚ) (h : mSqrt f x = some s) :
    ∃ v, x = some v ∧ 0 ≤ v ∧ s = f v := by
  cases x with
  | none => simp [mSqrt] at h
  | some q =>
    by_cases hq : q < 0
    · simp [mSqrt, hq] at h
    · refine ⟨q, rfl, le_of_not_lt hq, ?_⟩
      simp [mSqrt, hq] at h
      exact h.symm

theorem npVar_of_short (xs : List ℚ) (h : xs.length ≤ 1) : npVar xs = none := by
  simp [npVar, h]

/-- Claim C2, counterexample: the claim states that with fewer than 2
observations in the control sample the operation fails with a DataError, no
MetricResult is produced, and report construction aborts.  On a frame whose
control partition holds exactly one observation, the code instead produces a
full four-entry report including a MetricResult for the primary metric; the
variance-derived Cohen d field is NaN. -/
theorem small_sample_counterexample :
    (analyze_all_metrics testEnv dfOneControl).length = 4 ∧
    ((analyze_all_metrics testEnv dfOneControl).lookup PRIMARY_METRIC).isSome = true ∧
    (analyze_metric testEnv dfOneControl PRIMARY_METRIC true).cohens_d = none := by
  refine ⟨rfl, rfl, by decide⟩

/-- Claim C2, amended: when either sample has fewer than 2 observations, the
statistics operation does not fail; it returns a result whose Cohen d is
undefined (NaN), and report construction still completes with one entry per
configured metric. -/
theorem small_sample_nan_no_abort (env : StatsEnv) (df : List UserRow)
    (control variant : List ℚ) (h : control.length < 2 ∨ variant.length < 2) :
    (perform_ttest env control variant).cohens_d = none ∧
    (analyze_all_metrics env df).length = 4 := by
  constructor
  · show calculate_cohens_d env control variant = none
    unfold calculate_cohens_d pooled_std
    rcases h with h | h
    · rw [npVar_of_short control (by omega)]
      simp [mMul_none_right, mAdd_none_left, mDiv_none_left, mSqrt_none, mDiv_none_right]
    · rw [npVar_of_short variant (by omega)]
      simp [mMul_none_right, mAdd_none_right, mDiv_none_left, mSqrt_none, mDiv_none_right]
  · rfl

/-- Witness for small_sample_nan_no_abort at a concrete input. -/
theorem small_sample_nan_no_abort_witness :
    (perform_ttest testEnv [5] [1, 2, 3]).cohens_d = none ∧
    (analyze_all_metrics testEnv dfOneControl).length = 4 :=
  small_sample_nan_no_abort testEnv dfOneControl [5] [1, 2, 3] (Or.inl (by decide))

/-- Claim C3, counterexample: the claim states that a zero or non-finite
pooled standard deviation makes the operation fail with a NumericError rather
than return a result containing an undefined value, and that no NaN reaches
the decision layer.  With all observations identical across both groups the
pooled standard deviation is zero, yet perform_ttest returns a normal result
whose Cohen d is NaN, analyze_metric stores that NaN in the MetricResult, the
decision operation consumes it, and the undefined p-value is rendered as nan
inside the returned reasoning. -/
theorem zero_pooled_std_counterexample :
    pooled_std testEnv [1, 1] [1, 1] = some 0 ∧
    (perform_ttest testEnv [1, 1] [1, 1]).cohens_d = none ∧
    (perform_ttest testEnv [1, 1] [1, 1]).relative_lift = some 0 ∧
    (analyze_metric testEnv dfConst PRIMARY_METRIC true).cohens_d = none ∧
    ((make_ship_decision [(PRIMARY_METRIC, analyze_metric testEnv dfConst PRIMARY_METRIC true)]).map
      (fun d => d.reasoning.get? 1)) = some (some "p-value = nan (threshold: 0.05)") := by
  refine ⟨?_, ?_, ?_, ?_, ?_⟩
  · norm_num [pooled_std, npVar, npMean, mSqrt, mDiv, mAdd, mMul, testEnv]
  · norm_num [perform_ttest, calculate_cohens_d, pooled_std, npVar, npMean, mSqrt, mDiv,
      mAdd, mMul, mSub, testEnv]
  · norm_num [perform_ttest, calculate_cohens_d, pooled_std, npVar, npMean, mSqrt, mDiv,
      mAdd, mMul, mSub, mNe, testEnv]
  · norm_num [analyze_metric, seriesOf, dfConst, perform_ttest, calculate_cohens_d, pooled_std,
      npVar, npMean, mSqrt, mDiv, mAdd, mMul, mSub, testEnv, List.filterMap, List.filter]
  · norm_num [make_ship_decision, ship_decision_body, analyze_metric, seriesOf, dfConst,
      perform_ttest, calculate_cohens_d, pooled_std, npVar, npMean, mSqrt, mDiv, mAdd, mMul,
      mSub, mNe, mLt, mGt, mLe, mGe, mAbs, testEnv, List.filterMap, List.filter, List.lookup,
      format_p_value, pyFmt, SIGNIFICANCE_LEVEL, GUARDRAIL_SIGNIFICANCE, MIN_EFFECT_SIZE,
      MAX_GUARDRAIL_DEGRADATION, degraded_guardrails_of]
    rfl

/-- Claim C3, amended: when the pooled standard deviation is zero or
undefined, the statistics operation does not fail; it returns a result whose
Cohen d is NaN (undefined), which is then stored in the produced
MetricResult. -/
theorem zero_pooled_std_nan_cohens_d (env : StatsEnv) (control variant : List ℚ)
    (h : pooled_std env control variant = some 0 ∨ pooled_std env control variant = none) :
    calculate_cohens_d env control variant = none ∧
    (perform_ttest env control variant).cohens_d = none := by
  have hc : calculate_cohens_d env control variant = none := by
    unfold calculate_cohens_d
    rcases h with h | h <;> rw [h]
    · exact mDiv_some_zero _
    · exact mDiv_none_right _
  exact ⟨hc, hc⟩

/-- Witness for zero_pooled_std_nan_cohens_d at a concrete input. -/
theorem zero_pooled_std_nan_witness :
    calculate_cohens_d testEnv [1, 1] [1, 1] = none ∧
    (perform_ttest testEnv [1, 1] [1, 1]).cohens_d = none :=
  zero_pooled_std_nan_cohens_d testEnv [1, 1] [1, 1]
    (Or.inl (by norm_num [pooled_std, npVar, npMean, mSqrt, mDiv, mAdd, mMul, testEnv]))

/-- Claim C5: relative_lift equals (variant_mean - control_mean) /
control_mean when the control mean is nonzero, and is exactly 0 when the
control mean is zero. -/
theorem relative_lift_formula (env : StatsEnv) (control variant : List ℚ) (c v : ℚ)
    (hc : npMean control = some c) (hv : npMean variant = some v) :
    (perform_ttest env control variant).relative_lift =
      if c = 0 then some 0 else some ((v - c) / c) := by
  by_cases h : c = 0
  · subst h
    simp [perform_ttest, hc, hv, mNe]
  · simp [perform_ttest, hc, hv, mNe, mSub, mDiv, h]

/-- Witness for relative_lift_formula at a concrete input. -/
theorem relative_lift_formula_witness :
    (perform_ttest testEnv [2, 2] [3, 3]).relative_lift =
      if (2 : ℚ) = 0 then some 0 else some (((3 : ℚ) - 2) / 2) :=
  relative_lift_formula testEnv [2, 2] [3, 3] 2 3 (by norm_num [npMean]) (by norm_num [npMean])

/-- Claim C6: is_significant holds exactly when the p-value is a defined
number strictly below the role significance level, which is 0.05 for the
primary metric and 0.10 for a guardrail. -/
theorem significance_threshold_by_role (env : StatsEnv) (df : List UserRow)
    (name : String) (isPrimary : Bool) :
    ((analyze_metric env df name isPrimary).is_significant = true ↔
      ∃ p : ℚ, (analyze_metric env df name isPrimary).p_value = some p ∧
        p < (if isPrimary then SIGNIFICANCE_LEVEL else GUARDRAIL_SIGNIFICANCE)) ∧
    SIGNIFICANCE_LEVEL = 5 / 100 ∧ GUARDRAIL_SIGNIFICANCE = 10 / 100 := by
  refine ⟨?_, rfl, rfl⟩
  cases isPrimary <;> simp [analyze_metric, mLt_some_iff]

/-- Claim C4, counterexample: the claim states that guardrail degradation is
driven by an explicit per-metric higher_is_worse flag and not inferred from
the metric name.  In the code the upward-degradation test is selected by the
literal column name avg_skip_rate: on identical data with a significant +10
percent lift, the skip-rate metric analyzed under the name skip_rate (its
configured id) is not flagged degraded while under the name avg_skip_rate it
is, and the spec computation with higher_is_worse set for the skip-rate
metric disagrees with the code on the former name. -/
theorem degradation_name_inference_counterexample :
    (analyze_metric sigEnv dfLift "skip_rate" false).is_degraded = false ∧
    (analyze_metric sigEnv dfLift "avg_skip_rate" false).is_degraded = true ∧
    is_degraded_spec true (analyze_metric sigEnv dfLift "skip_rate" false).is_significant
      (analyze_metric sigEnv dfLift "skip_rate" false).relative_lift = true := by
  refine ⟨?_, ?_, ?_⟩ <;>
    · norm_num [analyze_metric, is_degraded_spec, seriesOf, dfLift, perform_ttest,
        calculate_cohens_d, pooled_std, npVar, npMean, mSqrt, mDiv, mAdd, mMul, mSub, mNe,
        mLt, mGt, mLe, mGe, mAbs, sigEnv, List.filterMap, List.filter, SIGNIFICANCE_LEVEL,
        GUARDRAIL_SIGNIFICANCE, MIN_EFFECT_SIZE, MAX_GUARDRAIL_DEGRADATION]
      try decide

/-- Claim C4, amended: guardrail degradation direction is inferred from the
metric column name: the higher-is-worse test is applied exactly when the
analyzed column is avg_skip_rate, the lower-is-worse test otherwise, and the
primary metric is never degraded. -/
theorem degradation_is_name_based (env : StatsEnv) (df : List UserRow)
    (name : String) (isPrimary : Bool) :
    (analyze_metric env df name isPrimary).is_degraded =
      if isPrimary then false
      else is_degraded_spec (decide (name = "avg_skip_rate"))
        (analyze_metric env df name isPrimary).is_significant
        (analyze_metric env df name isPrimary).relative_lift := by
  by_cases h : name = "avg_skip_rate" <;>
    cases isPrimary <;>
      simp [analyze_metric, is_degraded_spec, h]

/-- Claim C8: whenever calculate_cohens_d yields a defined value and both
sample means are defined, the sign of the Cohen d matches the sign of
(variant_mean - control_mean), and it is zero exactly when the two means are
equal.  The library square root is assumed nonnegative on nonnegative
arguments, as np.sqrt is. -/
theorem cohens_d_sign_matches_mean_difference (env : StatsEnv)
    (hsqrt : ∀ q : ℚ, 0 ≤ q → 0 ≤ env.sqrt q)
    (control variant : List ℚ) (d m1 m2 : ℚ)
    (hd : calculate_cohens_d env control variant = some d)
    (h1 : npMean control = some m1) (h2 : npMean variant = some m2) :
    (0 < d ↔ m1 < m2) ∧ (d < 0 ↔ m2 < m1) ∧ (d = 0 ↔ m1 = m2) := by
  unfold calculate_cohens_d at hd
  obtain ⟨a, b, ha, hb, hb0, hdab⟩ := (mDiv_eq_some_iff _ _ _).mp hd
  rw [h1, h2] at ha
  have ha' : a = m2 - m1 := by
    simpa [mSub] using ha.symm
  rw [pooled_std] at hb
  obtain ⟨v, _, hv0, hsv⟩ := mSqrt_eq_some _ _ _ hb
  have hbpos : 0 < b := by
    have := hsqrt v hv0
    rw [← hsv] at this
    exact lt_of_le_of_ne this (Ne.symm hb0)
  subst hdab
  subst ha'
  refine ⟨?_, ?_, ?_⟩
  · rw [lt_div_iff₀ hbpos, zero_mul, sub_pos]
  · rw [div_lt_iff₀ hbpos, zero_mul, sub_neg]
  · rw [div_eq_zero_iff]
    simp [hb0, sub_eq_zero, eq_comm]

/-- Witness for cohens_d_sign_matches_mean_difference at a concrete input:
control [0, 2] and variant [1, 3] give Cohen d 1 under a library square root
that is 1 on positive arguments. -/
theorem cohens_d_sign_witness :
    ((0 : ℚ) < 1 ↔ (1 : ℚ) < 2) ∧ ((1 : ℚ) < 0 ↔ (2 : ℚ) < 1) ∧ ((1 : ℚ) = 0 ↔ (1 : ℚ) = 2) :=
  cohens_d_sign_matches_mean_difference testEnv
    (by
      intro q hq
      by_cases h : q ≤ 0 <;> simp [testEnv, h])
    [0, 2] [1, 3] 1 1 2
    (by
      norm_num [calculate_cohens_d, pooled_std, npVar, npMean, mSqrt, mDiv, mAdd, mMul,
        mSub, testEnv])
    (by norm_num [npMean]) (by norm_num [npMean])

/-- Claim C10: in the report built by analyze_all_metrics, the guardrail
configured as skip_rate is stored under the key skip_rate while its
metric_name field is the source column avg_skip_rate, so the key and the
inner name differ for this metric; for the primary metric and the other two
guardrails the key equals the metric_name. -/
theorem skip_rate_key_name_mismatch (env : StatsEnv) (df : List UserRow) :
    ((analyze_all_metrics env df).lookup "skip_rate").map MetricResult.metric_name
      = some "avg_skip_rate" ∧
    "skip_rate" ≠ "avg_skip_rate" ∧
    ((analyze_all_metrics env df).lookup PRIMARY_METRIC).map MetricResult.metric_name
      = some PRIMARY_METRIC ∧
    ((analyze_all_metrics env df).lookup "sessions_per_user").map MetricResult.metric_name
      = some "sessions_per_user" ∧
    ((analyze_all_metrics env df).lookup "retention_d1").map MetricResult.metric_name
      = some "retention_d1" := by
  refine ⟨rfl, by decide, rfl, rfl, rfl⟩

theorem dont_ship_ne_ship : ("DON\x27T SHIP" : String) ≠ "SHIP" := by decide

/-- Claim C7: the decision depends only on the primary MetricResult and the
derived degraded-guardrail list; any two evaluated results maps agreeing on
those two projections yield the identical decision, verdict, confidence and
reasoning order included. -/
theorem decision_depends_only_on_primary_and_degraded
    (r1 r2 : List (String × MetricResult))
    (hp : r1.lookup PRIMARY_METRIC = r2.lookup PRIMARY_METRIC)
    (hd : degraded_guardrails_of r1 = degraded_guardrails_of r2) :
    make_ship_decision r1 = make_ship_decision r2 := by
  unfold make_ship_decision
  simp only [hp, hd]

/-- Witness for decision_depends_only_on_primary_and_degraded at a concrete
results map. -/
theorem decision_depends_witness :
    make_ship_decision exResults = make_ship_decision exResults :=
  decision_depends_only_on_primary_and_degraded exResults exResults rfl rfl

/-- Claim C9: whenever the engine returns a decision, a SHIP verdict implies
an empty degraded-guardrail list, a strictly positive defined primary lift,
and a significant primary result meeting the effect-size threshold; the
verdict is one of exactly two strings and the confidence one of exactly two
strings. -/
theorem ship_verdict_invariants (results : List (String × MetricResult))
    (primary : MetricResult) (dec : Decision)
    (hp : results.lookup PRIMARY_METRIC = some primary)
    (hdec : make_ship_decision results = some dec) :
    (dec.decision = "SHIP" →
      dec.degraded_guardrails = [] ∧
      mGt dec.primary_metric_lift (some 0) = true ∧
      primary.is_significant = true ∧ primary.meets_threshold = true) ∧
    (dec.decision = "SHIP" ∨ dec.decision = "DON\x27T SHIP") ∧
    (dec.confidence = "HIGH" ∨ dec.confidence = "MEDIUM") := by
  have hdec' : dec = ship_decision_body primary (degraded_guardrails_of results) := by
    unfold make_ship_decision at hdec
    rw [hp] at hdec
    simpa using hdec.symm
  subst hdec'
  cases hsig : primary.is_significant <;>
    cases hmt : primary.meets_threshold <;>
      cases hgt : mGt primary.relative_lift (some 0) <;>
        cases hlt : mLt primary.relative_lift (some 0) <;>
          cases hD : degraded_guardrails_of results <;>
            simp [ship_decision_body, hsig, hmt, hgt, hlt, hD, dont_ship_ne_ship]

/-- Claim C1: the ship decision is a fixed-priority case split, first match
wins.  (1) Significant primary meeting the threshold with positive lift and
no degraded guardrail gives SHIP with HIGH confidence.  (2) The same primary
condition with at least one degraded guardrail gives DON T SHIP with MEDIUM
confidence and the reasoning enumerates the degraded metric ids.  (3) A
significant primary with negative lift gives DON T SHIP with HIGH
confidence.  (4) In every remaining case the verdict is DON T SHIP with
MEDIUM confidence, the reasoning states the observed lift and p-value, and an
extra final reasoning line notes threshold failure when meets_threshold is
false. -/
theorem ship_decision_case_split (results : List (String × MetricResult))
    (primary : MetricResult) (dec : Decision)
    (hp : results.lookup PRIMARY_METRIC = some primary)
    (hdec : make_ship_decision results = some dec) :
    ((primary.is_significant && primary.meets_threshold
        && mGt primary.relative_lift (some 0)) = true →
      degraded_guardrails_of results = [] →
      dec.decision = "SHIP" ∧ dec.confidence = "HIGH") ∧
    ((primary.is_significant && primary.meets_threshold
        && mGt primary.relative_lift (some 0)) = true →
      degraded_guardrails_of results ≠ [] →
      dec.decision = "DON\x27T SHIP" ∧ dec.confidence = "MEDIUM" ∧
      dec.reasoning.get? 1 = some ("BUT guardrail metric(s) degraded: "
        ++ String.intercalate ", " (degraded_guardrails_of results))) ∧
    (primary.is_significant = true → mLt primary.relative_lift (some 0) = true →
      dec.decision = "DON\x27T SHIP" ∧ dec.confidence = "HIGH") ∧
    ((primary.is_significant && primary.meets_threshold
        && mGt primary.relative_lift (some 0)) = false →
      (primary.is_significant && mLt primary.relative_lift (some 0)) = false →
      dec.decision = "DON\x27T SHIP" ∧ dec.confidence = "MEDIUM" ∧
      dec.reasoning.get? 0 = some ("Primary metric lift ("
        ++ pyFmt 2 (mMul primary.relative_lift (some 100))
        ++ "%) is not statistically significant") ∧
      dec.reasoning.get? 1 = some ("p-value = " ++ format_p_value primary.p_value
        ++ " (threshold: 0.05)") ∧
      (primary.meets_threshold = false →
        dec.reasoning.getLast? = some "Lift does not meet minimum threshold of 2.0%")) := by
  have hdec' : dec = ship_decision_body primary (degraded_guardrails_of results) := by
    unfold make_ship_decision at hdec
    rw [hp] at hdec
    simpa using hdec.symm
  subst hdec'
  refine ⟨?_, ?_, ?_, ?_⟩
  · intro hs hD
    simp [ship_decision_body, hs, hD]
  · intro hs hD
    cases hDc : degraded_guardrails_of results with
    | nil => exact absurd hDc hD
    | cons d ds =>
      simp [ship_decision_body, hs, hDc]
  · intro hsig hlt
    have hgt := mLt_zero_not_mGt_zero hlt
    simp [ship_decision_body, hsig, hlt, hgt]
  · intro hns hnn
    refine ⟨?_, ?_, ?_, ?_, ?_⟩
    · simp [ship_decision_body, hns, hnn]
    · simp [ship_decision_body, hns, hnn]
    · simp [ship_decision_body, hns, hnn]
    · simp [ship_decision_body, hns, hnn]
    · intro hmf
      simp [ship_decision_body, hns, hnn, hmf]

/-- Witness for ship_decision_case_split at a concrete evaluated results
map. -/
theorem ship_decision_case_split_witness :
    ((exPrimary.is_significant && exPrimary.meets_threshold
        && mGt exPrimary.relative_lift (some 0)) = true →
      degraded_guardrails_of exResults = [] →
      decEx.decision = "SHIP" ∧ decEx.confidence = "HIGH") ∧
    ((exPrimary.is_significant && exPrimary.meets_threshold
        && mGt exPrimary.relative_lift (some 0)) = true →
      degraded_guardrails_of exResults ≠ [] →
      decEx.decision = "DON\x27T SHIP" ∧ decEx.confidence = "MEDIUM" ∧
      decEx.reasoning.get? 1 = some ("BUT guardrail metric(s) degraded: "
        ++ String.intercalate ", " (degraded_guardrails_of exResults))) ∧
    (exPrimary.is_significant = true → mLt exPrimary.relative_lift (some 0) = true →
      decEx.decision = "DON\x27T SHIP" ∧ decEx.confidence = "HIGH") ∧
    ((exPrimary.is_significant && exPrimary.meets_threshold
        && mGt exPrimary.relative_lift (some 0)) = false →
      (exPrimary.is_significant && mLt exPrimary.relative_lift (some 0)) = false →
      decEx.decision = "DON\x27T SHIP" ∧ decEx.confidence = "MEDIUM" ∧
      decEx.reasoning.get? 0 = some ("Primary metric lift ("
        ++ pyFmt 2 (mMul exPrimary.relative_lift (some 100))
        ++ "%) is not statistically significant") ∧
      decEx.reasoning.get? 1 = some ("p-value = " ++ format_p_value exPrimary.p_value
        ++ " (threshold: 0.05)") ∧
      (exPrimary.meets_threshold = false →
        decEx.reasoning.getLast? = some "Lift does not meet minimum threshold of 2.0%")) :=
  ship_decision_case_split exResults exPrimary decEx rfl rfl

/-- Witness for ship_verdict_invariants at a concrete evaluated results
map. -/
theorem ship_verdict_invariants_witness :
    (decEx.decision = "SHIP" →
      decEx.degraded_guardrails = [] ∧
      mGt decEx.primary_metric_lift (some 0) = true ∧
      exPrimary.is_significant = true ∧ exPrimary.meets_threshold = true) ∧
    (decEx.decision = "SHIP" ∨ decEx.decision = "DON\x27T SHIP") ∧
    (decEx.confidence = "HIGH" ∨ decEx.confidence = "MEDIUM") :=
  ship_verdict_invariants exResults exPrimary decEx rfl rfl
